import Mathlib

/-!
Shallow embedding of `TwitchChannelPointsMiner/TwitchChannelPointsMiner.py`
(the session orchestrator of the Twitch-Channel-Points-Miner-v2 repository).

The orchestrator is the only file under `src/`.  Collaborator classes
(`Twitch`, `Streamer`, `WebSocketsPool`, `TwitchBrowser`, the event
dispatcher) are not in the repository snapshot; where a claim depends on
their behaviour they are modelled from the spec, and the corresponding
definitions say so in their doc comments.  External calls made by the
orchestrator (channel-id lookup, initial points, online check, current
time, user id) are abstracted into an `Env` record of pure functions, and
the possible failures of shutdown-time release calls into an
`ExtBehavior` record, so that the orchestrator code itself is translated
line by line.
-/

/-- Modelled from the spec (section 3): the `Streamer` record — identity
(display name, stable channel id), online flag, point balance and history
log.  The `Streamer` class itself is not under `src/`; the orchestrator
constructs it as `Streamer(streamer_username, channel_id)` and the report
reads `channel_points`. -/
structure Streamer where
  username : String
  channel_id : String
  channel_points : Int
  online : Bool
  history : List (Int × String)
deriving DecidableEq, Repr

instance : Inhabited Streamer := ⟨⟨"", "", 0, false, []⟩⟩

/-- A pub/sub topic as constructed at lines 125-148: a topic-family string
together with either a `user_id` (account scope) or a `streamer`
(channel scope). -/
structure PubsubTopic where
  topic : String
  user_id : Option String
  streamer : Option Streamer
deriving DecidableEq, Repr

/-- The mutable fields of `TwitchChannelPointsMiner` that the claims are
about.  `twitch_browser`, `ws_pool` and `minute_watcher_thread` are
tracked as presence only (`Option Unit`), mirroring the `None` /
constructed distinction the code branches on.  `twitch_running` mirrors
`self.twitch.running`, assigned at line 161. -/
structure MinerState where
  make_predictions : Bool
  follow_raid : Bool
  streamers : List Streamer
  twitch_browser : Option Unit
  ws_pool : Option Unit
  minute_watcher_thread : Option Unit
  running : Bool
  twitch_running : Bool
  start_datetime : Option Nat
  original_streamers : List Streamer
deriving DecidableEq, Repr

/-- The state `__init__` (lines 35-66) leaves the miner in: nothing
constructed, `running` false, no start time, empty streamer lists. -/
def initState (make_predictions follow_raid : Bool) : MinerState :=
  { make_predictions := make_predictions
    follow_raid := follow_raid
    streamers := []
    twitch_browser := none
    ws_pool := none
    minute_watcher_thread := none
    running := false
    twitch_running := true
    start_datetime := none
    original_streamers := [] }

/-- The external collaborators `run` calls, abstracted as pure functions:
`get_channel_id` returns `none` where the Python call raises
`StreamerDoesNotExistException`; `initial_points` and `is_online` stand
for `load_channel_points_context` / `check_streamer_online` keyed by
channel id; `user_id` is `twitch_login.get_user_id()`; `now` is
`datetime.now()`. -/
structure Env where
  get_channel_id : String → Option String
  initial_points : String → Int
  is_online : String → Bool
  user_id : String
  now : Nat

/-- Leading and trailing whitespace removed, as Python `str.strip()`. -/
def stripChars (l : List Char) : List Char :=
  ((l.dropWhile Char.isWhitespace).reverse.dropWhile Char.isWhitespace).reverse

/-- Python `s.lower().strip()`: lowercase every character, then strip
surrounding whitespace. -/
def lowerStrip (s : String) : String :=
  String.mk (stripChars (s.data.map Char.toLower))

/-- Lines 83-94: for each configured name, `streamer_username.lower().strip()`
is computed and its result discarded (line 85), then the channel id is
resolved for the raw name; on success a `Streamer` is built from the raw
name and appended, on `StreamerDoesNotExistException` the name is logged
and skipped. -/
def resolveStreamers (env : Env) (names : List String) : List Streamer :=
  names.filterMap fun name =>
    let _discarded := lowerStrip name
    (env.get_channel_id name).map fun cid =>
      { username := name, channel_id := cid, channel_points := 0,
        online := false, history := [] }

/-- Line 98: `load_channel_points_context` fills in the balance. -/
def loadChannelPointsContext (env : Env) (st : Streamer) : Streamer :=
  { st with channel_points := env.initial_points st.channel_id }

/-- Line 99: `check_streamer_online` sets the online flag. -/
def checkStreamerOnline (env : Env) (st : Streamer) : Streamer :=
  { st with online := env.is_online st.channel_id }

/-- Lines 125-148: the topic list submitted to the pool —
`community-points-user-v1` for the account always;
`predictions-user-v1` for the account iff `make_predictions`;
then per streamer `video-playback-by-id` always, `raid` iff
`follow_raid`, `predictions-channel-v1` iff `make_predictions`. -/
def topicsFor (user_id : String) (make_predictions follow_raid : Bool)
    (streamers : List Streamer) : List PubsubTopic :=
  [⟨"community-points-user-v1", some user_id, none⟩]
    ++ (if make_predictions then [⟨"predictions-user-v1", some user_id, none⟩] else [])
    ++ streamers.flatMap fun st =>
        [⟨"video-playback-by-id", none, some st⟩]
          ++ (if follow_raid then [⟨"raid", none, some st⟩] else [])
          ++ (if make_predictions then [⟨"predictions-channel-v1", none, some st⟩] else [])

/-- What a call to `run` produces: the state it leaves behind and the
topics it submitted to the pool (lines 150-151). -/
structure RunResult where
  state : MinerState
  submitted : List PubsubTopic
deriving Repr

/-- Lines 71-151 of `run`, up to the blocking loop (modelled separately by
`waitWhileRunning`): the `self.running` guard (lines 72-73, only an error
log, no state change), then flag and start time, login, streamer
resolution, per-streamer context loading, the deep snapshot
(line 100), browser construction iff `make_predictions`, watcher thread,
pool construction and topic submission. -/
def runMiner (env : Env) (names : List String) (s : MinerState) : RunResult :=
  if s.running then
    { state := s, submitted := [] }
  else
    let s1 := { s with running := true, start_datetime := some env.now }
    let s2 := { s1 with streamers := s1.streamers ++ resolveStreamers env names }
    let s3 := { s2 with streamers := s2.streamers.map fun st =>
                  checkStreamerOnline env (loadChannelPointsContext env st) }
    let s4 := { s3 with original_streamers := s3.streamers }
    let s5 := if s4.make_predictions then { s4 with twitch_browser := some () } else s4
    let s6 := { s5 with minute_watcher_thread := some (), ws_pool := some () }
    { state := s6,
      submitted := topicsFor env.user_id s6.make_predictions s6.follow_raid s6.streamers }

/-- Lines 68-69: `mine` only forwards its streamer list to `run`. -/
def mineMiner (env : Env) (names : List String) (s : MinerState) : RunResult :=
  runMiner env names s

/-- Lines 153-154: `while self.running: time.sleep(1.5)`.  The flag is
shared mutable state flipped by `end` from a signal handler, so the value
read at the i-th iteration is an input `flag : Nat → Bool`.  Fuel bounds
the number of iterations we unfold; `none` means the loop was still
running after `fuel` reads, `some i` means the read at iteration `i`
returned false and the loop (hence `run`) returned. -/
def waitWhileRunning (flag : Nat → Bool) : Nat → Nat → Option Nat
  | 0, _ => none
  | fuel + 1, i => if flag i then waitWhileRunning flag fuel (i + 1) else some i

/-- The observable steps of `end` (lines 156-167), in the order the code
performs them. -/
inductive EndAction where
  | browserQuit
  | setRunningFalse
  | poolEnd
  | printReport
  | sysExit
deriving DecidableEq, Repr

/-- Outcomes of the external release calls `end` makes: whether
`self.twitch_browser.browser.quit()` raises, and whether
`self.ws_pool.end()` raises.  The code wraps neither in try/except. -/
structure ExtBehavior where
  browserQuitFails : Bool
  poolEndFails : Bool
deriving DecidableEq, Repr

/-- Result of an invocation of `end`: the state it leaves, the trace of
steps it completed, and the exception that escaped it, if any. -/
structure EndResult where
  state : MinerState
  trace : List EndAction
  error : Option String
deriving DecidableEq, Repr

/-- Whether `__print_report` (lines 169-201) completes: line 177 computes
`datetime.now() - self.start_datetime`, a `TypeError` when
`start_datetime` is `None`; lines 191-195 index
`self.original_streamers[i]` for every `i < len(self.streamers)`, an
`IndexError` when the snapshot list is shorter. -/
def printReportOk (s : MinerState) : Bool :=
  s.start_datetime.isSome && decide (s.streamers.length ≤ s.original_streamers.length)

/-- Lines 156-167, step by step in source order: quit the browser if one
was constructed (line 158-159, unguarded — a raise escapes `end`); flip
`self.running` and `self.twitch.running` false (line 161); call
`self.ws_pool.end()` (line 162 — an `AttributeError` when the pool was
never constructed, and any raise escapes); print the report (line 164);
`sys.exit(0)` (line 167). -/
def endMiner (ext : ExtBehavior) (s : MinerState) : EndResult :=
  if s.twitch_browser.isSome && ext.browserQuitFails then
    { state := s, trace := [], error := some "browser.quit raised" }
  else
    let tr0 : List EndAction := if s.twitch_browser.isSome then [.browserQuit] else []
    let s1 := { s with running := false, twitch_running := false }
    let tr1 := tr0 ++ [.setRunningFalse]
    if s1.ws_pool.isNone then
      { state := s1, trace := tr1, error := some "AttributeError: NoneType has no attribute end" }
    else if ext.poolEndFails then
      { state := s1, trace := tr1, error := some "ws_pool.end raised" }
    else
      let tr2 := tr1 ++ [.poolEnd]
      if printReportOk s1 then
        { state := s1, trace := tr2 ++ [.printReport, .sysExit], error := none }
      else
        { state := s1, trace := tr2, error := some "print_report raised" }

/-- Lines 191-195: the per-streamer deltas the report prints —
`self.streamers[i].channel_points - self.original_streamers[i].channel_points`
for `i` in `range(0, len(self.streamers))`. -/
def reportDeltas (s : MinerState) : List Int :=
  (List.range s.streamers.length).map fun i =>
    (s.streamers.getD i default).channel_points
      - (s.original_streamers.getD i default).channel_points

/-- Modelled from the spec: the Event Dispatcher (section 4.2, not under
`src/`) routes an account-points balance-change event to the Streamer
Registry — it sets the authoritative new balance of the targeted live
streamer and appends a history entry; it touches nothing else, in
particular not the deep snapshot `original_streamers` and not the
identity fields of any streamer. -/
def applyBalanceEvent (s : MinerState) (i : Nat) (newBalance : Int) : MinerState :=
  match s.streamers.get? i with
  | none => s
  | some st =>
      let st1 : Streamer :=
        { st with channel_points := newBalance,
                  history := st.history ++ [(newBalance - st.channel_points, "event")] }
      { s with streamers := s.streamers.set i st1 }

/-- A session-worth of balance-change events, applied in arrival order. -/
def applyEvents (events : List (Nat × Int)) (s : MinerState) : MinerState :=
  events.foldl (fun t e => applyBalanceEvent t e.1 e.2) s

/-! ## Concrete fixtures used by witnesses and counterexamples -/

/-- A concrete environment: every name except "ghost" resolves. -/
def envW : Env :=
  { get_channel_id := fun n => if n = "ghost" then none else some (n ++ "-id")
    initial_points := fun _ => 500
    is_online := fun _ => true
    user_id := "acct"
    now := 7 }

/-- A fully-constructed miner as `run` leaves it just before the blocking
loop: running, browser, pool and thread present, start time recorded. -/
def readyState : MinerState :=
  { initState true true with
      running := true
      twitch_browser := some ()
      ws_pool := some ()
      minute_watcher_thread := some ()
      start_datetime := some 7 }

/-- External release calls that succeed. -/
def extOk : ExtBehavior := ⟨false, false⟩

/-- The concrete state `run` leaves just after the line-100 snapshot,
for the `envW` environment and one configured streamer. -/
def snapState : MinerState := (runMiner envW ["alice"] (initState true true)).state

/-- The `running`/`twitch.running` flip (line 161) touches none of the
fields `__print_report` reads. -/
theorem printReportOk_flip (s : MinerState) :
    printReportOk { s with running := false, twitch_running := false } = printReportOk s := rfl

/-! ## C1: order of the shutdown steps -/

/-- C1 counterexample: on a fully-constructed miner with all release calls
succeeding, `end` performs `browser.quit()` BEFORE flipping `running`
false, so the order the claim mandates (flip `running` first, then
release the browser) does not hold on this invocation. -/
theorem end_order_counterexample :
    (endMiner extOk readyState).trace
        = [.browserQuit, .setRunningFalse, .poolEnd, .printReport, .sysExit]
      ∧ ¬ ((endMiner extOk readyState).trace.indexOf .setRunningFalse
            < (endMiner extOk readyState).trace.indexOf .browserQuit) := by
  decide

/-- C1 amended: on every invocation of `end` that completes without
raising, the steps happen in this fixed order: browser release first
(when a browser was constructed), then the `running` flip, then the pool
shutdown, and only then the final report. -/
theorem end_order (ext : ExtBehavior) (s : MinerState)
    (h : (endMiner ext s).error = none) :
    (endMiner ext s).trace
      = (if s.twitch_browser.isSome then [EndAction.browserQuit] else [])
          ++ [.setRunningFalse, .poolEnd, .printReport, .sysExit] := by
  obtain ⟨bq, pe⟩ := ext
  cases bq <;> cases pe <;> cases hb : s.twitch_browser <;> cases hp : s.ws_pool <;>
    cases hd : s.start_datetime <;>
    simp_all [endMiner, printReportOk] <;>
    split_ifs at h ⊢ <;> simp_all

/-- C1 amended witness at the concrete fully-constructed miner. -/
theorem end_order_witness :
    (endMiner extOk readyState).error = none
      ∧ (endMiner extOk readyState).trace
          = (if readyState.twitch_browser.isSome then [EndAction.browserQuit] else [])
              ++ [.setRunningFalse, .poolEnd, .printReport, .sysExit] :=
  ⟨by decide, end_order extOk readyState (by decide)⟩

/-! ## C2: idempotence of shutdown -/

/-- C2 counterexample: invoking `end` twice on a fully-constructed miner
prints the final report twice and quits the browser twice — there is no
guard making the second invocation a no-op. -/
theorem end_twice_counterexample :
    ((endMiner extOk readyState).trace
        ++ (endMiner extOk (endMiner extOk readyState).state).trace).count .printReport = 2
      ∧ ((endMiner extOk readyState).trace
          ++ (endMiner extOk (endMiner extOk readyState).state).trace).count .browserQuit = 2 := by
  decide

/-- C2 amended: a second invocation of `end` is NOT a no-op — whenever a
first invocation completed without raising, a second invocation on the
resulting state performs exactly the same steps again (browser quit, flag
flip, pool shutdown, report) and again completes without raising. -/
theorem end_not_idempotent (ext : ExtBehavior) (s : MinerState)
    (h : (endMiner ext s).error = none) :
    (endMiner ext (endMiner ext s).state).trace = (endMiner ext s).trace
      ∧ (endMiner ext (endMiner ext s).state).error = none := by
  obtain ⟨bq, pe⟩ := ext
  cases bq <;> cases pe <;> cases hb : s.twitch_browser <;> cases hp : s.ws_pool <;>
    cases hd : s.start_datetime <;>
    simp_all [endMiner, printReportOk] <;>
    split_ifs at h ⊢ <;> simp_all

/-- C2 amended witness at the concrete fully-constructed miner. -/
theorem end_not_idempotent_witness :
    (endMiner extOk readyState).error = none
      ∧ ((endMiner extOk (endMiner extOk readyState).state).trace
            = (endMiner extOk readyState).trace
          ∧ (endMiner extOk (endMiner extOk readyState).state).error = none) :=
  ⟨by decide, end_not_idempotent extOk readyState (by decide)⟩

/-! ## C3: shutdown never raises -/

/-- C3 counterexample: `end` invoked on a freshly-constructed miner
(before `run`, so `ws_pool` is still `None`) raises — line 162 calls
`self.ws_pool.end()` on `None` — and no report is produced.  Nothing in
`end` is wrapped in try/except. -/
theorem end_raises_counterexample :
    (endMiner extOk (initState true true)).error.isSome = true
      ∧ (endMiner extOk (initState true true)).trace.count .printReport = 0 := by
  decide

/-- C3 amended: no release-step failure is swallowed.  `end` completes
without raising exactly when the browser quit (if a browser exists)
succeeds, the pool has been constructed, its shutdown succeeds, and the
report preconditions hold (`start_datetime` set and the snapshot at least
as long as the live list); and the report is printed exactly in that
case. -/
theorem end_error_characterization (ext : ExtBehavior) (s : MinerState) :
    ((endMiner ext s).error = none
        ↔ ((s.twitch_browser.isSome → ext.browserQuitFails = false)
            ∧ s.ws_pool.isSome = true ∧ ext.poolEndFails = false
            ∧ printReportOk s = true))
      ∧ ((endMiner ext s).error = none
          ↔ EndAction.printReport ∈ (endMiner ext s).trace) := by
  obtain ⟨bq, pe⟩ := ext
  cases bq <;> cases pe <;> cases hb : s.twitch_browser <;> cases hp : s.ws_pool <;>
    cases hd : s.start_datetime <;>
    simp_all [endMiner, printReportOk] <;>
    split_ifs <;> simp_all

/-! ## C8: run while already running is a frame-preserving no-op -/

/-- C8: calling `run` (and `mine`, which only forwards its argument to
`run`) while `running` is already true takes the guard branch of lines
72-73: it emits an error log only — the returned state is the input state
with every field unchanged, and no topic is submitted to any pool. -/
theorem run_while_running_noop (env : Env) (names : List String)
    (s : MinerState) (h : s.running = true) :
    runMiner env names s = { state := s, submitted := [] }
      ∧ mineMiner env names s = { state := s, submitted := [] } := by
  constructor <;> simp [runMiner, mineMiner, h]

/-- C8 witness: a concrete already-running miner. -/
theorem run_while_running_noop_witness :
    ({ initState true true with running := true } : MinerState).running = true
      ∧ (runMiner envW ["alice"] { initState true true with running := true }
            = { state := { initState true true with running := true }, submitted := [] }
          ∧ mineMiner envW ["alice"] { initState true true with running := true }
              = { state := { initState true true with running := true }, submitted := [] }) :=
  ⟨rfl, run_while_running_noop envW ["alice"] _ rfl⟩

/-! ## C6: unresolvable names are skipped, resolvable ones all kept -/

/-- The names that survive resolution are exactly those whose channel-id
lookup succeeds, in order, kept verbatim. -/
theorem resolveStreamers_usernames (env : Env) (names : List String) :
    (resolveStreamers env names).map (fun st => st.username)
      = names.filter fun n => (env.get_channel_id n).isSome := by
  induction names with
  | nil => rfl
  | cons n ns ih =>
      cases h : env.get_channel_id n <;>
        simp [resolveStreamers, List.filterMap_cons, h, List.filter_cons] <;>
        simpa [resolveStreamers] using ih

/-- Context loading (lines 96-99) does not change a streamer's name. -/
theorem load_preserves_username (env : Env) (st : Streamer) :
    (checkStreamerOnline env (loadChannelPointsContext env st)).username = st.username := rfl

/-- C6: starting from a fresh miner (empty registry, not running), `run`
never aborts on an unresolvable name: the registry it builds contains
exactly the configured names whose channel-id resolution succeeded, in
configuration order. -/
theorem run_registry_exact (env : Env) (names : List String) (s : MinerState)
    (h : s.running = false) (h0 : s.streamers = []) :
    ((runMiner env names s).state.streamers).map (fun st => st.username)
      = names.filter fun n => (env.get_channel_id n).isSome := by
  cases hmp : s.make_predictions <;>
    simp [runMiner, h, h0, hmp, List.map_map, Function.comp,
          checkStreamerOnline, loadChannelPointsContext] <;>
    exact resolveStreamers_usernames env names

/-- C6 witness: with "ghost" unresolvable, the registry ends up holding
exactly the two resolvable names. -/
theorem run_registry_exact_witness :
    (initState true true).running = false ∧ (initState true true).streamers = []
      ∧ ((runMiner envW ["alice", "ghost", "bob"] (initState true true)).state.streamers).map
            (fun st => st.username)
          = ["alice", "ghost", "bob"].filter fun n => (envW.get_channel_id n).isSome :=
  ⟨rfl, rfl, run_registry_exact envW ["alice", "ghost", "bob"] (initState true true) rfl rfl⟩

/-! ## C9: configured names are used verbatim, never normalized -/

/-- C9: two configured names that agree after lowercasing and stripping
(so they differ only in letter case or surrounding whitespace) but are
distinct strings are resolved and stored as two distinct, unnormalized
entries: the lookup is called on each raw name and the raw names are what
the `Streamer` records carry. -/
theorem names_kept_verbatim (env : Env) (a b : String)
    (hnorm : lowerStrip a = lowerStrip b) (hne : a ≠ b)
    (ha : (env.get_channel_id a).isSome = true)
    (hb : (env.get_channel_id b).isSome = true) :
    (resolveStreamers env [a, b]).map (fun st => st.username) = [a, b]
      ∧ (resolveStreamers env [a, b]).map (fun st => some st.channel_id)
          = [env.get_channel_id a, env.get_channel_id b] := by
  rcases Option.isSome_iff_exists.mp ha with ⟨ca, hca⟩
  rcases Option.isSome_iff_exists.mp hb with ⟨cb, hcb⟩
  simp [resolveStreamers, hca, hcb]

/-- C9 witness: "Alice" and " alice " normalize alike, resolve, and are
stored verbatim and distinct. -/
theorem names_kept_verbatim_witness :
    (lowerStrip "Alice" = lowerStrip " alice " ∧ "Alice" ≠ " alice "
        ∧ (envW.get_channel_id "Alice").isSome = true
        ∧ (envW.get_channel_id " alice ").isSome = true)
      ∧ ((resolveStreamers envW ["Alice", " alice "]).map (fun st => st.username)
            = ["Alice", " alice "]
          ∧ (resolveStreamers envW ["Alice", " alice "]).map (fun st => some st.channel_id)
              = [envW.get_channel_id "Alice", envW.get_channel_id " alice "]) :=
  ⟨⟨by decide, by decide, by decide, by decide⟩,
    names_kept_verbatim envW "Alice" " alice " (by decide) (by decide) (by decide) (by decide)⟩

/-! ## C5: the exact topic set submitted to the pool -/

/-- Membership in the topic list of lines 125-148, characterized. -/
theorem mem_topicsFor (uid : String) (mp fr : Bool) (L : List Streamer) (t : PubsubTopic) :
    t ∈ topicsFor uid mp fr L
      ↔ (t = ⟨"community-points-user-v1", some uid, none⟩
          ∨ (mp = true ∧ t = ⟨"predictions-user-v1", some uid, none⟩)
          ∨ ∃ st ∈ L,
              (t = ⟨"video-playback-by-id", none, some st⟩
                ∨ (fr = true ∧ t = ⟨"raid", none, some st⟩)
                ∨ (mp = true ∧ t = ⟨"predictions-channel-v1", none, some st⟩))) := by
  cases mp <;> cases fr <;>
    simp [topicsFor, List.mem_flatMap, List.mem_append] <;> tauto

/-- The topics `run` submits are `topicsFor` over the registry it built. -/
theorem run_submitted_eq (env : Env) (names : List String) (s : MinerState)
    (h : s.running = false) :
    (runMiner env names s).submitted
      = topicsFor env.user_id s.make_predictions s.follow_raid
          (runMiner env names s).state.streamers := by
  cases hmp : s.make_predictions <;> simp [runMiner, h, hmp]

/-- C5: for every run configuration, the topics submitted to the pool are
exactly: the account-points topic always; the account-predictions topic
iff betting is enabled; and per resolved streamer the video-playback
topic always, the raid topic iff raid-following is enabled, the
channel-predictions topic iff betting is enabled. -/
theorem topics_submitted_exact (env : Env) (names : List String) (s : MinerState)
    (h : s.running = false) (t : PubsubTopic) :
    t ∈ (runMiner env names s).submitted
      ↔ (t = ⟨"community-points-user-v1", some env.user_id, none⟩
          ∨ (s.make_predictions = true ∧ t = ⟨"predictions-user-v1", some env.user_id, none⟩)
          ∨ ∃ st ∈ (runMiner env names s).state.streamers,
              (t = ⟨"video-playback-by-id", none, some st⟩
                ∨ (s.follow_raid = true ∧ t = ⟨"raid", none, some st⟩)
                ∨ (s.make_predictions = true ∧ t = ⟨"predictions-channel-v1", none, some st⟩))) := by
  rw [run_submitted_eq env names s h]
  exact mem_topicsFor env.user_id s.make_predictions s.follow_raid _ t

/-- C5 witness at a concrete configuration and the account-points topic. -/
theorem topics_submitted_exact_witness :
    (initState true true).running = false
      ∧ ((⟨"community-points-user-v1", some envW.user_id, none⟩ : PubsubTopic)
            ∈ (runMiner envW ["alice"] (initState true true)).submitted
          ↔ ((⟨"community-points-user-v1", some envW.user_id, none⟩ : PubsubTopic)
                = ⟨"community-points-user-v1", some envW.user_id, none⟩
              ∨ ((initState true true).make_predictions = true
                  ∧ (⟨"community-points-user-v1", some envW.user_id, none⟩ : PubsubTopic)
                      = ⟨"predictions-user-v1", some envW.user_id, none⟩)
              ∨ ∃ st ∈ (runMiner envW ["alice"] (initState true true)).state.streamers,
                  ((⟨"community-points-user-v1", some envW.user_id, none⟩ : PubsubTopic)
                      = ⟨"video-playback-by-id", none, some st⟩
                    ∨ ((initState true true).follow_raid = true
                        ∧ (⟨"community-points-user-v1", some envW.user_id, none⟩ : PubsubTopic)
                            = ⟨"raid", none, some st⟩)
                    ∨ ((initState true true).make_predictions = true
                        ∧ (⟨"community-points-user-v1", some envW.user_id, none⟩ : PubsubTopic)
                            = ⟨"predictions-channel-v1", none, some st⟩)))) :=
  ⟨rfl, topics_submitted_exact envW ["alice"] (initState true true) rfl _⟩

/-! ## C7: run blocks until `running` becomes false -/

/-- While every read of `running` returns true, the loop of lines 153-154
never exits, whatever fuel it is given. -/
theorem wait_never_exits (flag : Nat → Bool) (h : ∀ i, flag i = true) :
    ∀ fuel i, waitWhileRunning flag fuel i = none := by
  intro fuel
  induction fuel with
  | zero => intro i; rfl
  | succ n ih => intro i; simp [waitWhileRunning, h i]; exact ih (i + 1)

/-- If the read at some iteration returns false, the loop exits at or
before that iteration. -/
theorem wait_exits (flag : Nat → Bool) :
    ∀ n i, flag (i + n) = false
      → ∃ m, m ≤ i + n ∧ waitWhileRunning flag (n + 1) i = some m ∧ flag m = false := by
  intro n
  induction n with
  | zero =>
      intro i h
      simp at h
      exact ⟨i, by simp, by simp [waitWhileRunning, h], by simpa using h⟩
  | succ n ih =>
      intro i h
      cases hf : flag i with
      | false => exact ⟨i, by omega, by simp [waitWhileRunning, hf], hf⟩
      | true =>
          obtain ⟨m, hm, hw, hfl⟩ := ih (i + 1) (by simpa [Nat.add_assoc, Nat.add_comm, Nat.add_left_comm] using h)
          exact ⟨m, by omega, by simpa [waitWhileRunning, hf] using hw, hfl⟩

/-- C7: the loop `while self.running: sleep(1.5)` does not let `run`
return while every read of `running` is true, and once a read returns
false the loop — and with it `run` — terminates. -/
theorem run_blocks_until_not_running (flag : Nat → Bool) (fuel n : Nat) :
    ((∀ i, flag i = true) → waitWhileRunning flag fuel 0 = none)
      ∧ (flag n = false
          → ∃ m, m ≤ n ∧ waitWhileRunning flag (n + 1) 0 = some m ∧ flag m = false) := by
  constructor
  · intro h; exact wait_never_exits flag h fuel 0
  · intro h
    obtain ⟨m, hm, hw, hfl⟩ := wait_exits flag n 0 (by simpa using h)
    exact ⟨m, by omega, hw, hfl⟩

/-- C7 witness: a flag held true forever keeps the loop running, and a
flag that turns false at iteration 2 ends it. -/
theorem run_blocks_until_not_running_witness :
    (waitWhileRunning (fun _ => true) 5 0 = none)
      ∧ (∃ m, m ≤ 2 ∧ waitWhileRunning (fun i => decide (i < 2)) 3 0 = some m
          ∧ (fun i => decide (i < 2)) m = false) :=
  ⟨(run_blocks_until_not_running (fun _ => true) 5 0).1 (fun _ => rfl),
    (run_blocks_until_not_running (fun i => decide (i < 2)) 5 2).2 (by decide)⟩

/-! ## C4 and C10: the start snapshot and the report deltas -/

/-- A balance-change event never touches the deep snapshot. -/
theorem applyBalanceEvent_original (s : MinerState) (i : Nat) (b : Int) :
    (applyBalanceEvent s i b).original_streamers = s.original_streamers := by
  unfold applyBalanceEvent
  cases s.streamers.get? i <;> rfl

/-- A balance-change event never changes the length of the live list. -/
theorem applyBalanceEvent_length (s : MinerState) (i : Nat) (b : Int) :
    (applyBalanceEvent s i b).streamers.length = s.streamers.length := by
  unfold applyBalanceEvent
  cases s.streamers.get? i <;> simp

/-- Writing back the element a list already holds changes nothing. -/
theorem list_set_getElem_self {α : Type} (l : List α) (i : Nat) (h : i < l.length) :
    l.set i l[i] = l := by
  apply List.ext_getElem?
  intro j
  rw [List.getElem?_set]
  split_ifs with h1
  · subst h1; simp [List.getElem?_eq_getElem h]
  · rfl

/-- A balance-change event keeps every streamer's identity: the map of
(username, channel id) over the live list is untouched. -/
theorem applyBalanceEvent_ident (s : MinerState) (i : Nat) (b : Int) :
    (applyBalanceEvent s i b).streamers.map (fun st => (st.username, st.channel_id))
      = s.streamers.map (fun st => (st.username, st.channel_id)) := by
  unfold applyBalanceEvent
  cases hg : s.streamers.get? i with
  | none => rfl
  | some st =>
      have hi : i < s.streamers.length := by
        by_contra hlt
        rw [List.get?_eq_none.mpr (by omega)] at hg
        exact Option.noConfusion hg
      have hst : s.streamers[i] = st := by
        rw [List.get?_eq_getElem?, List.getElem?_eq_getElem hi] at hg
        exact Option.some.inj hg
      have hmi : i < (s.streamers.map (fun st => (st.username, st.channel_id))).length := by
        simpa using hi
      have hmap : (s.streamers.map (fun st => (st.username, st.channel_id)))[i]
            = (st.username, st.channel_id) := by
        rw [List.getElem_map, hst]
      simp only [List.map_set]
      rw [← hmap]
      exact list_set_getElem_self _ i hmi

/-- A whole stream of balance-change events never touches the snapshot. -/
theorem applyEvents_original (events : List (Nat × Int)) :
    ∀ s : MinerState, (applyEvents events s).original_streamers = s.original_streamers := by
  induction events with
  | nil => intro s; rfl
  | cons e es ih =>
      intro s
      simpa [applyEvents, applyBalanceEvent_original]
        using (applyBalanceEvent_original s e.1 e.2) ▸ ih (applyBalanceEvent s e.1 e.2)

/-- A whole stream of balance-change events preserves the live length. -/
theorem applyEvents_length (events : List (Nat × Int)) :
    ∀ s : MinerState, (applyEvents events s).streamers.length = s.streamers.length := by
  induction events with
  | nil => intro s; rfl
  | cons e es ih =>
      intro s
      have := ih (applyBalanceEvent s e.1 e.2)
      simpa [applyEvents, applyBalanceEvent_length] using this

/-- A whole stream of balance-change events preserves every identity. -/
theorem applyEvents_ident (events : List (Nat × Int)) :
    ∀ s : MinerState,
      (applyEvents events s).streamers.map (fun st => (st.username, st.channel_id))
        = s.streamers.map (fun st => (st.username, st.channel_id)) := by
  induction events with
  | nil => intro s; rfl
  | cons e es ih =>
      intro s
      have := ih (applyBalanceEvent s e.1 e.2)
      simpa [applyEvents, applyBalanceEvent_ident] using this

/-- Two streamer lists whose identity maps agree pair the same identities
at every index. -/
theorem ident_eq_of_map_eq {l1 l2 : List Streamer}
    (hm : l1.map (fun st => (st.username, st.channel_id))
            = l2.map (fun st => (st.username, st.channel_id))) (i : Nat) :
    (l1.getD i default).username = (l2.getD i default).username
      ∧ (l1.getD i default).channel_id = (l2.getD i default).channel_id := by
  have hlen : l1.length = l2.length := by
    have := congrArg List.length hm
    simpa using this
  by_cases hi : i < l1.length
  · have hi2 : i < l2.length := by omega
    have h1 : (l1.map (fun st => (st.username, st.channel_id)))[i]?
        = (l2.map (fun st => (st.username, st.channel_id)))[i]? := by rw [hm]
    rw [List.getElem?_map, List.getElem?_map] at h1
    rw [List.getElem?_eq_getElem hi, List.getElem?_eq_getElem hi2] at h1
    have h2 : (l1[i].username, l1[i].channel_id) = (l2[i].username, l2[i].channel_id) := by
      simpa using h1
    rw [List.getD_eq_getElem _ _ hi, List.getD_eq_getElem _ _ hi2]
    exact ⟨congrArg Prod.fst h2, congrArg Prod.snd h2⟩
  · rw [List.getD_eq_default _ _ (by omega), List.getD_eq_default _ _ (by omega)]
    exact ⟨rfl, rfl⟩

/-- C4: for every streamer index, after any number of balance-change
events delivered since the snapshot of line 100, the delta the report
prints (lines 191-195) equals the final balance minus the balance held in
the snapshot at session start. -/
theorem report_delta_eq (s : MinerState) (events : List (Nat × Int)) (i : Nat)
    (h : s.original_streamers = s.streamers) (hi : i < s.streamers.length) :
    (reportDeltas (applyEvents events s)).getD i 0
      = ((applyEvents events s).streamers.getD i default).channel_points
        - (s.streamers.getD i default).channel_points := by
  have hlen : (applyEvents events s).streamers.length = s.streamers.length :=
    applyEvents_length events s
  have horig : (applyEvents events s).original_streamers = s.streamers :=
    (applyEvents_original events s).trans h
  have hi2 : i < (applyEvents events s).streamers.length := by omega
  unfold reportDeltas
  rw [List.getD_eq_getElem _ _ (by simpa using hi2), List.getElem_map, List.getElem_range,
    horig]

/-- C10: from the snapshot of line 100 on, however many balance-change
events arrive, the live list and the snapshot keep the same length and,
at every index, carry the same username and channel id — the per-index
subtraction of the report always pairs a streamer with its own
snapshot. -/
theorem snapshot_pairs_live (s : MinerState) (events : List (Nat × Int))
    (h : s.original_streamers = s.streamers) :
    (applyEvents events s).streamers.length
        = (applyEvents events s).original_streamers.length
      ∧ ∀ i : Nat,
          ((applyEvents events s).streamers.getD i default).username
              = ((applyEvents events s).original_streamers.getD i default).username
            ∧ ((applyEvents events s).streamers.getD i default).channel_id
              = ((applyEvents events s).original_streamers.getD i default).channel_id := by
  have hlen : (applyEvents events s).streamers.length = s.streamers.length :=
    applyEvents_length events s
  have horig : (applyEvents events s).original_streamers = s.streamers :=
    (applyEvents_original events s).trans h
  have hident := applyEvents_ident events s
  refine ⟨by rw [hlen, horig], fun i => ?_⟩
  exact ident_eq_of_map_eq (by rw [hident, horig]) i

/-- C4 witness: starting from balance 500, one event setting the balance
to 540 makes the reported delta equal final minus snapshot. -/
theorem report_delta_eq_witness :
    snapState.original_streamers = snapState.streamers
      ∧ 0 < snapState.streamers.length
      ∧ (reportDeltas (applyEvents [(0, 540)] snapState)).getD 0 0
          = ((applyEvents [(0, 540)] snapState).streamers.getD 0 default).channel_points
            - (snapState.streamers.getD 0 default).channel_points :=
  ⟨rfl, by decide, report_delta_eq snapState [(0, 540)] 0 rfl (by decide)⟩

/-- C10 witness: after a balance-change event, the live list and the
snapshot still have equal length and agree on the identity at index 0. -/
theorem snapshot_pairs_live_witness :
    snapState.original_streamers = snapState.streamers
      ∧ (applyEvents [(0, 540)] snapState).streamers.length
          = (applyEvents [(0, 540)] snapState).original_streamers.length
      ∧ (((applyEvents [(0, 540)] snapState).streamers.getD 0 default).username
            = ((applyEvents [(0, 540)] snapState).original_streamers.getD 0 default).username
          ∧ ((applyEvents [(0, 540)] snapState).streamers.getD 0 default).channel_id
              = ((applyEvents [(0, 540)] snapState).original_streamers.getD 0 default).channel_id) :=
  ⟨rfl, (snapshot_pairs_live snapState [(0, 540)] rfl).1,
    (snapshot_pairs_live snapState [(0, 540)] rfl).2 0⟩
